import Mathlib

/-!
Shallow embedding of the Theia camera core:
  src/theia/sfm/camera/shared_extrinsics.h
  src/theia/sfm/camera/camera.h
  src/theia/sfm/camera/camera.cc

Doubles are modelled as exact rationals.  The external numeric collaborators
(ceres angle-axis conversions, projection-matrix decomposition, the radial
undistortion kernel) are not part of these sources; following the spec, which
scopes them out as external collaborators specified only at their interface,
the camera operations take them as explicit function arguments, and the
properties the sources rely on (e.g. that decoding an encoded rotation gives
the rotation back) appear as hypotheses.  Shared ownership through
`std::shared_ptr<SharedExtrinsics>` is modelled by a heap of extrinsics blocks
addressed by handles; a camera stores a handle, and two cameras sharing the
same handle model two cameras holding the same `shared_ptr`.
-/

namespace TheiaCam

/-- 3x3 matrix of (exact) doubles. -/
abbrev M3 := Matrix (Fin 3) (Fin 3) ℚ

/-- 3x4 projection matrix (`Matrix3x4d`). -/
abbrev M34 := Matrix (Fin 3) (Fin 4) ℚ

/-- A 3-vector of doubles (`Eigen::Vector3d`). -/
abbrev V3 := Fin 3 → ℚ

/-- A 2-vector of doubles (`Eigen::Vector2d`), as (x, y). -/
abbrev V2 := ℚ × ℚ

/-- Executable 3x3 matrix inverse, embedding Eigen's `.inverse()` as used on
`shared_to_local_rotation` (camera.cc lines 93 and 172): the classical
adjugate formula, which agrees with Mathlib's noncomputable `Inv` instance. -/
def inv3 (A : M3) : M3 := (A.det)⁻¹ • A.adjugate

/-- shared_extrinsics.h: a flat block of `kExtrinsicsSize = 6` doubles,
`POSITION = 0` (3 values) then `ORIENTATION = 3` (3 values, angle-axis). -/
structure SharedExtrinsics where
  params : Fin 6 → ℚ

/-- Modelled from the spec: the `SharedExtrinsics()` constructor body is not
among the sources (only its declaration is); the spec says the block is
"Default-constructed to all zeros (identity orientation, origin position)". -/
def SharedExtrinsics.init : SharedExtrinsics := ⟨fun _ => 0⟩

/-- The three doubles at offset `POSITION = 0` of the block. -/
def SharedExtrinsics.position (se : SharedExtrinsics) : V3 :=
  ![se.params 0, se.params 1, se.params 2]

/-- The three doubles at offset `ORIENTATION = 3` of the block (angle-axis). -/
def SharedExtrinsics.orientation (se : SharedExtrinsics) : V3 :=
  ![se.params 3, se.params 4, se.params 5]

/-- Writing three doubles at offset `POSITION = 0`
(`Map<Vector3d>(... + SharedExtrinsics::POSITION) = v`). -/
def SharedExtrinsics.writePosition (se : SharedExtrinsics) (v : V3) :
    SharedExtrinsics :=
  ⟨fun i => if i = 0 then v 0 else if i = 1 then v 1 else if i = 2 then v 2
    else se.params i⟩

/-- Writing three doubles at offset `ORIENTATION = 3`
(`Map<Vector3d>(... + SharedExtrinsics::ORIENTATION) = v`). -/
def SharedExtrinsics.writeOrientation (se : SharedExtrinsics) (v : V3) :
    SharedExtrinsics :=
  ⟨fun i => if i = 3 then v 0 else if i = 4 then v 1 else if i = 5 then v 2
    else se.params i⟩

/-- The heap of `SharedExtrinsics` blocks: `mem` maps every handle (the model
of a non-null `shared_ptr<SharedExtrinsics>`) to a block, and handles below
`next` are the ones already allocated. -/
structure Heap where
  mem : ℕ → SharedExtrinsics
  next : ℕ

/-- In-place mutation of the block a handle points to (the effect of writing
through `mutable_extrinsics()` of that block). -/
def Heap.modifySE (H : Heap) (h : ℕ) (f : SharedExtrinsics → SharedExtrinsics) :
    Heap :=
  { H with mem := Function.update H.mem h (f (H.mem h)) }

/-- `std::make_shared<SharedExtrinsics>()`: allocates a fresh block and
returns its handle. -/
def Heap.alloc (H : Heap) (se : SharedExtrinsics) : Heap × ℕ :=
  ({ mem := Function.update H.mem H.next se, next := H.next + 1 }, H.next)

/-- camera.h: the `Camera` members.  `camera_parameters_` is the flat block of
`kIntrinsicsSize = 7` doubles indexed by `FOCAL_LENGTH = 0, ASPECT_RATIO = 1,
SKEW = 2, PRINCIPAL_POINT_X = 3, PRINCIPAL_POINT_Y = 4, RADIAL_DISTORTION_1 =
5, RADIAL_DISTORTION_2 = 6`; `shared_extrinsics` is the handle of the shared
block; `shared_to_local_rotation` is the local frame offset (named
`shared_to_camera_rotation` in camera.cc); `image_size_` is (width, height). -/
structure Camera where
  camera_parameters_ : Fin 7 → ℚ
  shared_extrinsics : ℕ
  shared_to_local_rotation : M3
  image_size_ : ℤ × ℤ

/-- `intrinsics()[FOCAL_LENGTH]`. -/
def Camera.FocalLength (c : Camera) : ℚ := c.camera_parameters_ 0

/-- `intrinsics()[ASPECT_RATIO]`. -/
def Camera.AspectRatioOf (c : Camera) : ℚ := c.camera_parameters_ 1

/-- `intrinsics()[SKEW]`. -/
def Camera.Skew (c : Camera) : ℚ := c.camera_parameters_ 2

/-- `intrinsics()[PRINCIPAL_POINT_X]`. -/
def Camera.PrincipalPointX (c : Camera) : ℚ := c.camera_parameters_ 3

/-- `intrinsics()[PRINCIPAL_POINT_Y]`. -/
def Camera.PrincipalPointY (c : Camera) : ℚ := c.camera_parameters_ 4

/-- `intrinsics()[RADIAL_DISTORTION_1]`. -/
def Camera.RadialDistortion1 (c : Camera) : ℚ := c.camera_parameters_ 5

/-- `intrinsics()[RADIAL_DISTORTION_2]`. -/
def Camera.RadialDistortion2 (c : Camera) : ℚ := c.camera_parameters_ 6

/-- `Camera::SetFocalLength`: writes `mutable_intrinsics()[FOCAL_LENGTH]`,
with no validation. -/
def Camera.SetFocalLength (c : Camera) (focal_length : ℚ) : Camera :=
  { c with camera_parameters_ :=
      Function.update c.camera_parameters_ 0 focal_length }

/-- `Camera::SetAspectRatio`: writes `mutable_intrinsics()[ASPECT_RATIO]`,
with no validation. -/
def Camera.SetAspectRatioOf (c : Camera) (aspect_ratio : ℚ) : Camera :=
  { c with camera_parameters_ :=
      Function.update c.camera_parameters_ 1 aspect_ratio }

/-- `Camera::SetSkew`. -/
def Camera.SetSkew (c : Camera) (skew : ℚ) : Camera :=
  { c with camera_parameters_ := Function.update c.camera_parameters_ 2 skew }

/-- `Camera::SetPrincipalPoint`. -/
def Camera.SetPrincipalPoint (c : Camera) (px py : ℚ) : Camera :=
  { c with camera_parameters_ :=
      Function.update (Function.update c.camera_parameters_ 3 px) 4 py }

/-- `Camera::SetRadialDistortion`. -/
def Camera.SetRadialDistortion (c : Camera) (k1 k2 : ℚ) : Camera :=
  { c with camera_parameters_ :=
      Function.update (Function.update c.camera_parameters_ 5 k1) 6 k2 }

/-- `Camera::SetImageSize`. -/
def Camera.SetImageSize (c : Camera) (w h : ℤ) : Camera :=
  { c with image_size_ := (w, h) }

/-- `Camera::SetSharedExtrinsics` (camera.h lines 169-171): re-binds the
camera's `shared_ptr` to another block, touching nothing else. -/
def Camera.SetSharedExtrinsics (c : Camera) (h : ℕ) : Camera :=
  { c with shared_extrinsics := h }

/-- `Camera::SetSharedToLocalTransform` (camera.h lines 177-179). -/
def Camera.SetSharedToLocalTransform (c : Camera) (m : M3) : Camera :=
  { c with shared_to_local_rotation := m }

/-- `Camera::SetPosition`: writes the 3 position doubles of the shared
block. -/
def Camera.SetPosition (H : Heap) (c : Camera) (p : V3) : Heap :=
  H.modifySE c.shared_extrinsics (fun se => se.writePosition p)

/-- `Camera::GetPosition`: reads the 3 position doubles of the shared
block. -/
def Camera.GetPosition (H : Heap) (c : Camera) : V3 :=
  (H.mem c.shared_extrinsics).position

/-- `Camera::SetOrientationFromRotationMatrix` (camera.cc lines 171-177):
computes `world_to_shared = shared_to_local.inverse() * world_to_local` and
stores its angle-axis encoding (`matToAA` models the external
`ceres::RotationMatrixToAngleAxis`) into the shared block. -/
def Camera.SetOrientationFromRotationMatrix (matToAA : M3 → V3) (H : Heap)
    (c : Camera) (world_to_local_rotation : M3) : Heap :=
  H.modifySE c.shared_extrinsics (fun se =>
    se.writeOrientation
      (matToAA (inv3 c.shared_to_local_rotation * world_to_local_rotation)))

/-- `Camera::GetOrientationAsRotationMatrix` (camera.cc lines 186-192):
decodes the stored angle-axis (`aaToMat` models the external
`ceres::AngleAxisToRotationMatrix`) and left-multiplies the local frame
offset. -/
def Camera.GetOrientationAsRotationMatrix (aaToMat : V3 → M3) (H : Heap)
    (c : Camera) : M3 :=
  c.shared_to_local_rotation * aaToMat (H.mem c.shared_extrinsics).orientation

/-- An indeterminate baseline for the members of a `Camera` under
construction: C++ leaves them uninitialized, and the constructor body then
assigns every one of them, so the baseline never shows through. -/
def Camera.uninit (h : ℕ) : Camera :=
  { camera_parameters_ := fun _ => 0
    shared_extrinsics := h
    shared_to_local_rotation := 0
    image_size_ := (0, 0) }

/-- `Camera::Camera(std::shared_ptr<SharedExtrinsics>)` after its null check
(camera.cc lines 57-70): the same setter calls, in source order, then the
image size zeroed.  `h` is the handle the supplied `shared_ptr` points to. -/
def Camera.ctorBody (h : ℕ) : Camera :=
  (((((((Camera.uninit h).SetFocalLength 1).SetAspectRatioOf
      1).SetSkew 0).SetPrincipalPoint 0 0).SetRadialDistortion
      0 0).SetSharedToLocalTransform 1).SetSharedExtrinsics h
    |>.SetImageSize 0 0

/-- `Camera::Camera(std::shared_ptr<SharedExtrinsics>)` including
`DCHECK_NOTNULL` (camera.cc line 58), with the assertion modelled as fatal:
`none` is the model of a `shared_ptr` that is null, and the construction
aborts (`Option.none` result) instead of continuing. -/
def Camera.ctorChecked (h : Option ℕ) : Option Camera :=
  match h with
  | none => none
  | some h => some (Camera.ctorBody h)

/-- `Camera::Camera()` (camera.cc lines 73-74): allocates a fresh
`SharedExtrinsics` with `std::make_shared` and delegates to the bound
constructor. -/
def Camera.ctorDefault (H : Heap) : Heap × Camera :=
  let Hh := H.alloc SharedExtrinsics.init
  (Hh.1, Camera.ctorBody Hh.2)

/-- Modelled from the spec: `CalibrationMatrixToIntrinsics` lives in
projection_matrix_utils.cc, which is not among the sources.  It inverts the
calibration-matrix form of spec section 4.3,
`K = [[f, s, px], [0, f*a, py], [0, 0, 1]]`, writing focal length, skew,
aspect ratio and principal point into the intrinsics block and leaving the
radial distortion entries alone. -/
def CalibrationMatrixToIntrinsics (K : M3) (intr : Fin 7 → ℚ) : Fin 7 → ℚ :=
  fun i =>
    if i = 0 then K 0 0
    else if i = 2 then K 0 1
    else if i = 1 then K 1 1 / K 0 0
    else if i = 3 then K 0 2
    else if i = 4 then K 1 2
    else intr i

/-- `Camera::InitializeFromProjectionMatrix` (camera.cc lines 76-111).
`decompose` models the external `DecomposeProjectionMatrix` collaborator,
returning (calibration matrix, world-to-local rotation, position); `matToAA`
models the rotation-to-angle-axis encoding (`Eigen::AngleAxisd` on line 94).
The two `DCHECK_GT` on the image dimensions are modelled as fatal (`none`).
On the non-aborting path the function writes the image size, writes the
decomposed orientation (composed through the local offset inverse) and
position into the shared block, and then either returns `false` leaving the
intrinsics alone (a zero focal-length diagonal term) or writes the intrinsics
from `K` and returns `true`. -/
def Camera.InitializeFromProjectionMatrix (matToAA : M3 → V3)
    (decompose : M34 → M3 × M3 × V3) (H : Heap) (c : Camera)
    (image_width image_height : ℤ) (P : M34) :
    Option (Bool × Heap × Camera) :=
  if image_width ≤ 0 ∨ image_height ≤ 0 then none
  else
    let c1 := { c with image_size_ := (image_width, image_height) }
    let KRp := decompose P
    let calibration_matrix := KRp.1
    let world_to_local_rotation := KRp.2.1
    let position := KRp.2.2
    let world_to_shared_rotation :=
      inv3 c1.shared_to_local_rotation * world_to_local_rotation
    let H1 := H.modifySE c1.shared_extrinsics (fun se =>
      (se.writeOrientation (matToAA world_to_shared_rotation)).writePosition
        position)
    if calibration_matrix 0 0 = 0 ∨ calibration_matrix 1 1 = 0 then
      some (false, H1, c1)
    else
      some (true, H1,
        { c1 with camera_parameters_ := (CalibrationMatrixToIntrinsics
            calibration_matrix c1.camera_parameters_) })

/-- The radial distortion step of the forward pipeline, as documented in
camera.h lines 66-76: `r = px*px + py*py; d = 1 + k1*r + k2*r*r; p *= d`. -/
def radialDistort (k1 k2 : ℚ) (p : V2) : V2 :=
  let r := p.1 * p.1 + p.2 * p.2
  let d := 1 + k1 * r + k2 * r * r
  (d * p.1, d * p.2)

/-- Application of the calibration matrix `K = [[f, s, px], [0, f*a, py],
[0, 0, 1]]` (camera.h lines 57-64) to a normalized, distorted point. -/
def applyCalibration (f s a px py : ℚ) (p : V2) : V2 :=
  (f * p.1 + s * p.2 + px, f * a * p.2 + py)

/-- Modelled from the spec: the point `p = R * (X[0..2]/X[3] - C)` of the
pipeline documented in camera.h lines 66-76, where `R` is the effective
world-to-local rotation (the local offset composed with the decoded shared
orientation, exactly `GetOrientationAsRotationMatrix`) and `C` the camera
position. -/
def Camera.cameraFramePoint (aaToMat : V3 → M3) (H : Heap) (c : Camera)
    (point : Fin 4 → ℚ) : V3 :=
  (Camera.GetOrientationAsRotationMatrix aaToMat H c).mulVec
    ((fun i => point i.castSucc / point 3) - Camera.GetPosition H c)

/-- The normalized image point `p[0,1] / p[2]` of the pipeline in camera.h
lines 66-76, before distortion and calibration. -/
def Camera.normalizedProjection (aaToMat : V3 → M3) (H : Heap) (c : Camera)
    (point : Fin 4 → ℚ) : V2 :=
  let p := Camera.cameraFramePoint aaToMat H c point
  (p 0 / p 2, p 1 / p 2)

/-- Modelled from the spec: `Camera::ProjectPoint` delegates to the external
`ProjectPointToImage` kernel (project_point_to_image.h is not among the
sources), passing the shared extrinsics block, the intrinsics block and the
local frame offset.  The pipeline follows the equations documented in camera.h
lines 66-76: the depth returned is `p[2]` of the camera-frame point, and the
pixel is the normalized point after distortion and the calibration matrix. -/
def Camera.ProjectPoint (aaToMat : V3 → M3) (H : Heap) (c : Camera)
    (point : Fin 4 → ℚ) : ℚ × V2 :=
  (Camera.cameraFramePoint aaToMat H c point 2,
    applyCalibration c.FocalLength c.Skew c.AspectRatioOf c.PrincipalPointX
      c.PrincipalPointY
      (radialDistort c.RadialDistortion1 c.RadialDistortion2
        (Camera.normalizedProjection aaToMat H c point)))

/-- `Camera::PixelToUnitDepthRay` (camera.cc lines 139-160): undo the
calibration in closed form, undo the radial distortion through the external
`RadialUndistortPoint` collaborator (`undistort`, applied to the normalized
point with the two distortion coefficients), then rotate by the transpose of
the world-to-local rotation. -/
def Camera.PixelToUnitDepthRay (undistort : ℚ → ℚ → V2 → V2)
    (aaToMat : V3 → M3) (H : Heap) (c : Camera) (pixel : V2) : V3 :=
  let focal_length_y := c.FocalLength * c.AspectRatioOf
  let y_normalized := (pixel.2 - c.PrincipalPointY) / focal_length_y
  let x_normalized :=
    (pixel.1 - c.PrincipalPointX - y_normalized * c.Skew) / c.FocalLength
  let undistorted_point :=
    undistort c.RadialDistortion1 c.RadialDistortion2
      (x_normalized, y_normalized)
  let rotation := Camera.GetOrientationAsRotationMatrix aaToMat H c
  rotation.transpose.mulVec ![undistorted_point.1, undistorted_point.2, 1]

/-- The two divisors `Camera::PixelToUnitDepthRay` uses when undoing the
calibration (camera.cc lines 143-146): `FocalLength()` divides the x
coordinate and `focal_length_y = FocalLength() * AspectRatio()` divides the y
coordinate. -/
def pixelToUnitDepthRayDivisors (c : Camera) : ℚ × ℚ :=
  (c.FocalLength, c.FocalLength * c.AspectRatioOf)

/-- The squared Euclidean norm of the argument of
`Camera::SetOrientationFromAngleAxis` (camera.cc line 180): Eigen's
`v.normalized()` divides every component of `v` by `v.norm()`, so the
normalization divisor vanishes exactly when this rational quantity does. -/
def setOrientationFromAngleAxisNormSq (v : V3) : ℚ :=
  v 0 * v 0 + v 1 * v 1 + v 2 * v 2

/-- One item handed to a cereal archive: a raw double, a raw integer
(C++ `int` or `size_t`), or the identity marker cereal's `shared_ptr`
serialization emits for a shared object. -/
inductive SerItem where
  | d : ℚ → SerItem
  | int : ℤ → SerItem
  | ref : ℕ → SerItem
deriving DecidableEq

/-- What the spec says a persisted `SharedExtrinsics` is: exactly the
6-double block, in index order. -/
def SharedExtrinsics.sixDoubleBlock (se : SharedExtrinsics) : List SerItem :=
  (List.finRange 6).map (fun j => SerItem.d (se.params j))

/-- Modelled from the spec (the archive itself is the external serialization
mechanism): `SharedExtrinsics::serialize` is
`ar(parameters, sizeof(double) * kExtrinsicsSize)`.  A cereal archive
serializes each of its arguments in order: the raw arithmetic array
`parameters` as its 6 doubles, and then the second argument — the value
`sizeof(double) * 6 = 48`, which is itself an integer item here, not the
byte count of a `cereal::binary_data` wrapper. -/
def SharedExtrinsics.serializeItems (se : SharedExtrinsics) : List SerItem :=
  se.sixDoubleBlock ++ [SerItem.int 48]

/-- Column-major listing of a 3x3 matrix: the in-memory layout of
`Eigen::Matrix3d::data()` (Eigen's default storage order). -/
def colMajor (A : M3) : List SerItem :=
  [SerItem.d (A 0 0), SerItem.d (A 1 0), SerItem.d (A 2 0),
   SerItem.d (A 0 1), SerItem.d (A 1 1), SerItem.d (A 2 1),
   SerItem.d (A 0 2), SerItem.d (A 1 2), SerItem.d (A 2 2)]

/-- Modelled from the spec (cereal's `shared_ptr` serialization is the
external mechanism): a `shared_ptr` field is persisted as an identity marker
for the pointed-to object, followed by the object's own serialization the
first time that object is seen in the archive; `seen` carries the handles
already emitted. -/
def serializeSharedPtr (H : Heap) (seen : List ℕ) (h : ℕ) :
    List SerItem × List ℕ :=
  if h ∈ seen then ([SerItem.ref h], seen)
  else (SerItem.ref h :: (H.mem h).serializeItems, h :: seen)

/-- `Camera::serialize` (camera.h lines 201-207): the 7-double intrinsics
block as raw binary, then the `shared_ptr<SharedExtrinsics>` through the
archive's shared-pointer mechanism, then the 9 doubles of
`shared_to_local_rotation.data()` (column-major, Eigen's in-memory order) as
raw binary, then the 2 ints of `image_size_` as raw binary. -/
def Camera.serializeItems (H : Heap) (seen : List ℕ) (c : Camera) :
    List SerItem × List ℕ :=
  let shared := serializeSharedPtr H seen c.shared_extrinsics
  (((List.finRange 7).map (fun j => SerItem.d (c.camera_parameters_ j)))
      ++ shared.1
      ++ colMajor c.shared_to_local_rotation
      ++ [SerItem.int c.image_size_.1, SerItem.int c.image_size_.2],
    shared.2)

/-- A two-camera rig: one heap and two cameras (for the shared-extrinsics
interaction claims). -/
structure Rig where
  heap : Heap
  camA : Camera
  camB : Camera

/-- Writing a new position into camera A's shared block through the raw
mutable accessor (`mutable_extrinsics().mutable_extrinsics()`), as the
external optimizer does. -/
def Rig.rawWritePositionA (r : Rig) (p : V3) : Rig :=
  { r with heap :=
      r.heap.modifySE r.camA.shared_extrinsics (fun se => se.writePosition p) }

/-- Camera A's `SetSharedToLocalTransform`, inside the rig. -/
def Rig.setLocalOffsetA (r : Rig) (m : M3) : Rig :=
  { r with camA := r.camA.SetSharedToLocalTransform m }

/-! Helper lemmas about the block and heap primitives. -/

theorem orientation_writeOrientation (se : SharedExtrinsics) (v : V3) :
    (se.writeOrientation v).orientation = v := by
  funext i
  fin_cases i <;>
    simp [SharedExtrinsics.writeOrientation, SharedExtrinsics.orientation]

theorem position_writePosition (se : SharedExtrinsics) (v : V3) :
    (se.writePosition v).position = v := by
  funext i
  fin_cases i <;>
    simp [SharedExtrinsics.writePosition, SharedExtrinsics.position]

theorem orientation_writePosition (se : SharedExtrinsics) (v : V3) :
    (se.writePosition v).orientation = se.orientation := by
  funext i
  fin_cases i <;>
    simp [SharedExtrinsics.writePosition, SharedExtrinsics.orientation]

theorem mem_modifySE_self (H : Heap) (h : ℕ)
    (f : SharedExtrinsics → SharedExtrinsics) :
    (H.modifySE h f).mem h = f (H.mem h) := by
  simp [Heap.modifySE]

theorem inv3_eq_inv (A : M3) : inv3 A = A⁻¹ := by
  rw [Matrix.inv_def, inv3, Ring.inverse_eq_inv]

theorem mul_inv3_cancel (A : M3) (h : A.det ≠ 0) : A * inv3 A = 1 := by
  rw [inv3_eq_inv]
  exact Matrix.mul_nonsing_inv A (isUnit_iff_ne_zero.mpr h)

/-! Claim theorems. -/

/-- C1: for every world-to-local rotation matrix `R` and every camera,
whatever its local frame offset and shared block,
`SetOrientationFromRotationMatrix(R)` stores the angle-axis encoding of
`LocalFrameOffset⁻¹ * R` into the shared block, and
`GetOrientationAsRotationMatrix()` then recomposes
`LocalFrameOffset * R_world_shared` and returns `R` (given that the external
angle-axis codec decodes what it encoded, its interface contract). -/
theorem set_get_orientation_roundtrip (matToAA : M3 → V3) (aaToMat : V3 → M3)
    (H : Heap) (c : Camera) (R : M3)
    (hdet : c.shared_to_local_rotation.det ≠ 0)
    (hcodec : aaToMat (matToAA (inv3 c.shared_to_local_rotation * R)) =
      inv3 c.shared_to_local_rotation * R) :
    ((Camera.SetOrientationFromRotationMatrix matToAA H c R).mem
        c.shared_extrinsics).orientation =
      matToAA (inv3 c.shared_to_local_rotation * R) ∧
    Camera.GetOrientationAsRotationMatrix aaToMat
      (Camera.SetOrientationFromRotationMatrix matToAA H c R) c = R := by
  have hstore :
      ((Camera.SetOrientationFromRotationMatrix matToAA H c R).mem
        c.shared_extrinsics).orientation =
      matToAA (inv3 c.shared_to_local_rotation * R) := by
    rw [Camera.SetOrientationFromRotationMatrix, mem_modifySE_self,
      orientation_writeOrientation]
  refine ⟨hstore, ?_⟩
  rw [Camera.GetOrientationAsRotationMatrix, hstore, hcodec, ← mul_assoc,
    mul_inv3_cancel c.shared_to_local_rotation hdet, one_mul]

/-- Witness for C1 at a concrete camera (identity offset, handle 0), a
concrete heap, the identity rotation and a codec that is exact there. -/
theorem set_get_orientation_roundtrip_witness :
    ((Camera.SetOrientationFromRotationMatrix (fun _ => (fun _ => 0))
        ⟨fun _ => SharedExtrinsics.init, 1⟩
        ⟨fun _ => 0, 0, 1, (0, 0)⟩ 1).mem 0).orientation =
      (fun _ => (fun _ => (0 : ℚ))) (inv3 1 * 1) ∧
    Camera.GetOrientationAsRotationMatrix (fun _ => 1)
      (Camera.SetOrientationFromRotationMatrix (fun _ => (fun _ => 0))
        ⟨fun _ => SharedExtrinsics.init, 1⟩
        ⟨fun _ => 0, 0, 1, (0, 0)⟩ 1) ⟨fun _ => 0, 0, 1, (0, 0)⟩ = 1 :=
  set_get_orientation_roundtrip (fun _ => (fun _ => 0)) (fun _ => 1)
    ⟨fun _ => SharedExtrinsics.init, 1⟩ ⟨fun _ => 0, 0, 1, (0, 0)⟩ 1
    (by simp) (by simp [inv3_eq_inv])

/-- C2 (amended): for every camera with nonzero focal length and aspect
ratio, every orthogonal effective rotation, and every homogeneous point `X`
whose projection has positive depth, with the undistortion collaborator
inverting the distortion at the projected point,
`C + r * d = X[0..2] / X[3]` — the inhomogeneous 3D point, with the ray of
unit depth along the viewing axis.  (The claim as frozen equates the sum to
`X[0..2]` itself, which fails for homogeneous points not normalized to
`X[3] = 1`; see the counterexample.) -/
theorem project_unproject_unit_depth (undistort : ℚ → ℚ → V2 → V2)
    (aaToMat : V3 → M3) (H : Heap) (c : Camera) (X : Fin 4 → ℚ)
    (hf : c.FocalLength ≠ 0) (ha : c.AspectRatioOf ≠ 0)
    (hR : (Camera.GetOrientationAsRotationMatrix aaToMat H c).transpose *
      Camera.GetOrientationAsRotationMatrix aaToMat H c = 1)
    (hd : 0 < (Camera.ProjectPoint aaToMat H c X).1)
    (hund : undistort c.RadialDistortion1 c.RadialDistortion2
        (radialDistort c.RadialDistortion1 c.RadialDistortion2
          (Camera.normalizedProjection aaToMat H c X)) =
      Camera.normalizedProjection aaToMat H c X) :
    Camera.GetPosition H c +
      (Camera.ProjectPoint aaToMat H c X).1 •
        Camera.PixelToUnitDepthRay undistort aaToMat H c
          (Camera.ProjectPoint aaToMat H c X).2 =
    fun i => X i.castSucc / X 3 := by
  have hp2 : Camera.cameraFramePoint aaToMat H c X 2 ≠ 0 := ne_of_gt hd
  have key : Camera.PixelToUnitDepthRay undistort aaToMat H c
      (Camera.ProjectPoint aaToMat H c X).2 =
      (Camera.GetOrientationAsRotationMatrix aaToMat H c).transpose.mulVec
        ![(Camera.normalizedProjection aaToMat H c X).1,
          (Camera.normalizedProjection aaToMat H c X).2, 1] := by
    have hxy :
        ((Camera.ProjectPoint aaToMat H c X).2.2 - c.PrincipalPointY) /
            (c.FocalLength * c.AspectRatioOf) =
          (radialDistort c.RadialDistortion1 c.RadialDistortion2
            (Camera.normalizedProjection aaToMat H c X)).2 ∧
        ((Camera.ProjectPoint aaToMat H c X).2.1 - c.PrincipalPointX -
            (radialDistort c.RadialDistortion1 c.RadialDistortion2
              (Camera.normalizedProjection aaToMat H c X)).2 * c.Skew) /
            c.FocalLength =
          (radialDistort c.RadialDistortion1 c.RadialDistortion2
            (Camera.normalizedProjection aaToMat H c X)).1 := by
      constructor
      · simp only [Camera.ProjectPoint, applyCalibration]
        field_simp
      · simp only [Camera.ProjectPoint, applyCalibration]
        field_simp
        ring
    rw [Camera.PixelToUnitDepthRay]
    rw [hxy.1, hxy.2, hund]
  rw [key]
  have hvec : (![(Camera.normalizedProjection aaToMat H c X).1,
      (Camera.normalizedProjection aaToMat H c X).2, 1] : V3) =
      (Camera.cameraFramePoint aaToMat H c X 2)⁻¹ •
        Camera.cameraFramePoint aaToMat H c X := by
    funext i
    fin_cases i <;>
      simp [Camera.normalizedProjection, Pi.smul_apply, smul_eq_mul,
        div_eq_inv_mul, inv_mul_cancel₀ hp2]
  rw [hvec, Matrix.mulVec_smul]
  have hfst : (Camera.ProjectPoint aaToMat H c X).1 =
      Camera.cameraFramePoint aaToMat H c X 2 := rfl
  rw [hfst, smul_smul, mul_inv_cancel₀ hp2, one_smul,
    Camera.cameraFramePoint, Matrix.mulVec_mulVec, hR, Matrix.one_mulVec]
  abel

/-- A concrete camera for witnesses: focal length 1, aspect ratio 1, no skew,
principal point (0,0), no distortion, identity local offset, handle 0. -/
def wcam : Camera := ⟨![1, 1, 0, 0, 0, 0, 0], 0, 1, (0, 0)⟩

/-- A concrete one-block heap for witnesses. -/
def wheap : Heap := ⟨fun _ => SharedExtrinsics.init, 1⟩

theorem w2_orient :
    Camera.GetOrientationAsRotationMatrix (fun _ => 1) wheap wcam = 1 := by
  simp [Camera.GetOrientationAsRotationMatrix, wcam]

theorem w2_pos : Camera.GetPosition wheap wcam = ![0, 0, 0] := by
  funext i
  fin_cases i <;>
    simp [Camera.GetPosition, wcam, wheap, SharedExtrinsics.position,
      SharedExtrinsics.init]

theorem w2_frame :
    Camera.cameraFramePoint (fun _ => 1) wheap wcam ![0, 0, 2, 2] =
      ![0, 0, 1] := by
  rw [Camera.cameraFramePoint, w2_orient, Matrix.one_mulVec, w2_pos]
  funext i
  fin_cases i <;> norm_num

theorem w2_norm :
    Camera.normalizedProjection (fun _ => 1) wheap wcam ![0, 0, 2, 2] =
      (0, 0) := by
  simp only [Camera.normalizedProjection, w2_frame]
  norm_num

theorem w2_depth :
    (Camera.ProjectPoint (fun _ => 1) wheap wcam ![0, 0, 2, 2]).1 = 1 := by
  simp only [Camera.ProjectPoint, w2_frame]
  norm_num

theorem w2_pixel :
    (Camera.ProjectPoint (fun _ => 1) wheap wcam ![0, 0, 2, 2]).2 =
      (0, 0) := by
  simp only [Camera.ProjectPoint, w2_norm]
  norm_num [radialDistort, applyCalibration, wcam, Camera.FocalLength,
    Camera.Skew, Camera.AspectRatioOf, Camera.PrincipalPointX,
    Camera.PrincipalPointY, Camera.RadialDistortion1,
    Camera.RadialDistortion2]

theorem w2_ray :
    Camera.PixelToUnitDepthRay (fun _ _ q => q) (fun _ => 1) wheap wcam
      (0, 0) = ![0, 0, 1] := by
  rw [Camera.PixelToUnitDepthRay, w2_orient]
  norm_num [wcam, Camera.FocalLength, Camera.Skew, Camera.AspectRatioOf,
    Camera.PrincipalPointX, Camera.PrincipalPointY, Matrix.transpose_one,
    Matrix.one_mulVec]

/-- Witness for C2 (amended) at the camera `wcam`, the homogeneous point
(0,0,2,2), the identity decode (exact at the zero angle-axis) and the
identity undistortion (exact at zero distortion). -/
theorem project_unproject_unit_depth_witness :
    0 < (Camera.ProjectPoint (fun _ => 1) wheap wcam ![0, 0, 2, 2]).1 ∧
    Camera.GetPosition wheap wcam +
      (Camera.ProjectPoint (fun _ => 1) wheap wcam ![0, 0, 2, 2]).1 •
        Camera.PixelToUnitDepthRay (fun _ _ q => q) (fun _ => 1) wheap wcam
          (Camera.ProjectPoint (fun _ => 1) wheap wcam ![0, 0, 2, 2]).2 =
    fun i => (![0, 0, 2, 2] : Fin 4 → ℚ) i.castSucc / (![0, 0, 2, 2] :
      Fin 4 → ℚ) 3 :=
  ⟨by rw [w2_depth]; norm_num,
    project_unproject_unit_depth (fun _ _ q => q) (fun _ => 1) wheap wcam
      ![0, 0, 2, 2]
      (by norm_num [wcam, Camera.FocalLength])
      (by norm_num [wcam, Camera.AspectRatioOf])
      (by rw [w2_orient]; simp)
      (by rw [w2_depth]; norm_num)
      (by
        rw [w2_norm]
        norm_num [radialDistort, wcam, Camera.RadialDistortion1,
          Camera.RadialDistortion2])⟩

/-- C2 (counterexample): the claim as frozen says `X = C + r * d`
componentwise for every homogeneous `X` with positive depth.  At the camera
`wcam` and `X = (0,0,2,2)` (whose inhomogeneous point is (0,0,1)), with the
collaborators exact at this input (identity decode at the zero angle-axis,
identity undistortion at zero distortion, orthogonal rotation), the depth is
positive and the undistortion contract holds, yet
`C + r * d = (0,0,1) ≠ (0,0,2) = X[0..2]`. -/
theorem project_unproject_counterexample :
    0 < (Camera.ProjectPoint (fun _ => 1) wheap wcam ![0, 0, 2, 2]).1 ∧
    (fun _ _ q => q : ℚ → ℚ → V2 → V2) wcam.RadialDistortion1
        wcam.RadialDistortion2
        (radialDistort wcam.RadialDistortion1 wcam.RadialDistortion2
          (Camera.normalizedProjection (fun _ => 1) wheap wcam
            ![0, 0, 2, 2])) =
      Camera.normalizedProjection (fun _ => 1) wheap wcam ![0, 0, 2, 2] ∧
    Camera.GetPosition wheap wcam +
      (Camera.ProjectPoint (fun _ => 1) wheap wcam ![0, 0, 2, 2]).1 •
        Camera.PixelToUnitDepthRay (fun _ _ q => q) (fun _ => 1) wheap wcam
          (Camera.ProjectPoint (fun _ => 1) wheap wcam ![0, 0, 2, 2]).2 ≠
    ![0, 0, 2] := by
  refine ⟨?_, ?_, ?_⟩
  · rw [w2_depth]
    norm_num
  · rw [w2_norm]
    norm_num [radialDistort, wcam, Camera.RadialDistortion1,
      Camera.RadialDistortion2]
  · rw [w2_pos, w2_depth, w2_pixel, w2_ray]
    intro hcontra
    have h2 := congrFun hcontra 2
    norm_num at h2

/-- C3: for strictly positive image dimensions,
`InitializeFromProjectionMatrix` does not abort; it returns `false` exactly
when a diagonal calibration term `K(0,0)` or `K(1,1)` of the decomposition is
zero; in every case the shared block already holds the decomposed position
and the angle-axis of the offset-composed rotation (no rollback); on failure
the 7 intrinsics are untouched and on success they are written from `K`. -/
theorem initializeFromProjectionMatrix_spec (matToAA : M3 → V3)
    (decompose : M34 → M3 × M3 × V3) (H : Heap) (c : Camera)
    (iw ih : ℤ) (P : M34) (hw : 0 < iw) (hh : 0 < ih) :
    (Camera.InitializeFromProjectionMatrix matToAA decompose H c iw ih
      P).isSome = true ∧
    ∀ b H' c',
      Camera.InitializeFromProjectionMatrix matToAA decompose H c iw ih P =
        some (b, H', c') →
      ((b = false ↔
        (decompose P).1 0 0 = 0 ∨ (decompose P).1 1 1 = 0) ∧
       Camera.GetPosition H' c = (decompose P).2.2 ∧
       (H'.mem c.shared_extrinsics).orientation =
         matToAA (inv3 c.shared_to_local_rotation * (decompose P).2.1) ∧
       (b = false → c'.camera_parameters_ = c.camera_parameters_) ∧
       (b = true → c'.camera_parameters_ =
         CalibrationMatrixToIntrinsics (decompose P).1
           c.camera_parameters_)) := by
  have hcond : ¬(iw ≤ 0 ∨ ih ≤ 0) := by omega
  by_cases hK : (decompose P).1 0 0 = 0 ∨ (decompose P).1 1 1 = 0
  · have heval : Camera.InitializeFromProjectionMatrix matToAA decompose H c
        iw ih P =
        some (false,
          H.modifySE c.shared_extrinsics (fun se =>
            ((se.writeOrientation (matToAA
              (inv3 c.shared_to_local_rotation *
                (decompose P).2.1))).writePosition (decompose P).2.2)),
          { c with image_size_ := (iw, ih) }) := by
      rw [Camera.InitializeFromProjectionMatrix, if_neg hcond]
      simp only []
      rw [if_pos hK]
    refine ⟨by rw [heval]; rfl, ?_⟩
    intro b H' c' heq
    rw [heval] at heq
    simp only [Option.some.injEq, Prod.mk.injEq] at heq
    obtain ⟨hb, hH', hc'⟩ := heq
    subst hb hH' hc'
    refine ⟨by simp [hK], ?_, ?_, fun _ => rfl, fun hbt => absurd hbt (by decide)⟩
    · rw [Camera.GetPosition, mem_modifySE_self, position_writePosition]
    · rw [mem_modifySE_self, orientation_writePosition,
        orientation_writeOrientation]
  · have heval : Camera.InitializeFromProjectionMatrix matToAA decompose H c
        iw ih P =
        some (true,
          H.modifySE c.shared_extrinsics (fun se =>
            ((se.writeOrientation (matToAA
              (inv3 c.shared_to_local_rotation *
                (decompose P).2.1))).writePosition (decompose P).2.2)),
          { c with
              image_size_ := (iw, ih)
              camera_parameters_ := (CalibrationMatrixToIntrinsics
                (decompose P).1 c.camera_parameters_) }) := by
      rw [Camera.InitializeFromProjectionMatrix, if_neg hcond]
      simp only []
      rw [if_neg hK]
    refine ⟨by rw [heval]; rfl, ?_⟩
    intro b H' c' heq
    rw [heval] at heq
    simp only [Option.some.injEq, Prod.mk.injEq] at heq
    obtain ⟨hb, hH', hc'⟩ := heq
    subst hb hH' hc'
    refine ⟨by simp [hK], ?_, ?_, fun hbf => absurd hbf (by decide), fun _ => rfl⟩
    · rw [Camera.GetPosition, mem_modifySE_self, position_writePosition]
    · rw [mem_modifySE_self, orientation_writePosition,
        orientation_writeOrientation]

/-- Witness for C3 at a concrete decomposition (identity calibration matrix,
identity rotation, position (1,2,3)) and image size 4x3. -/
theorem initializeFromProjectionMatrix_spec_witness :
    (Camera.InitializeFromProjectionMatrix (fun _ => (fun _ => 0))
      (fun _ => (1, 1, ![1, 2, 3])) wheap wcam 4 3 0).isSome = true ∧
    ∀ b H' c',
      Camera.InitializeFromProjectionMatrix (fun _ => (fun _ => 0))
        (fun _ => (1, 1, ![1, 2, 3])) wheap wcam 4 3 0 = some (b, H', c') →
      ((b = false ↔ (1 : M3) 0 0 = 0 ∨ (1 : M3) 1 1 = 0) ∧
       Camera.GetPosition H' wcam = ![1, 2, 3] ∧
       (H'.mem wcam.shared_extrinsics).orientation = (fun _ => 0) ∧
       (b = false → c'.camera_parameters_ = wcam.camera_parameters_) ∧
       (b = true → c'.camera_parameters_ =
         CalibrationMatrixToIntrinsics 1 wcam.camera_parameters_)) :=
  initializeFromProjectionMatrix_spec (fun _ => (fun _ => 0))
    (fun _ => (1, 1, ![1, 2, 3])) wheap wcam 4 3 0 (by norm_num)
    (by norm_num)

/-- C4: for two cameras bound to the same shared block (with any local frame
offsets), writing a new position into the shared block through the raw
mutable extrinsics accessor changes both cameras' `GetPosition()` to that
value, and changing one camera's local frame offset leaves the other
camera's `GetOrientationAsRotationMatrix()` unchanged. -/
theorem shared_rig_position_and_offset (r : Rig) (p : V3) (m : M3)
    (aaToMat : V3 → M3)
    (hshare : r.camA.shared_extrinsics = r.camB.shared_extrinsics) :
    Camera.GetPosition (r.rawWritePositionA p).heap r.camA = p ∧
    Camera.GetPosition (r.rawWritePositionA p).heap r.camB = p ∧
    Camera.GetOrientationAsRotationMatrix aaToMat (r.setLocalOffsetA m).heap
        ((r.setLocalOffsetA m).camB) =
      Camera.GetOrientationAsRotationMatrix aaToMat r.heap r.camB := by
  refine ⟨?_, ?_, rfl⟩
  · rw [Rig.rawWritePositionA, Camera.GetPosition]
    rw [mem_modifySE_self, position_writePosition]
  · rw [Rig.rawWritePositionA, Camera.GetPosition, ← hshare]
    rw [mem_modifySE_self, position_writePosition]

/-- Witness for C4 at a concrete two-camera rig sharing handle 0. -/
theorem shared_rig_position_and_offset_witness :
    Camera.GetPosition ((Rig.mk wheap wcam wcam).rawWritePositionA
      ![5, 6, 7]).heap wcam = ![5, 6, 7] ∧
    Camera.GetPosition ((Rig.mk wheap wcam wcam).rawWritePositionA
      ![5, 6, 7]).heap wcam = ![5, 6, 7] ∧
    Camera.GetOrientationAsRotationMatrix (fun _ => 1)
        ((Rig.mk wheap wcam wcam).setLocalOffsetA 0).heap
        (((Rig.mk wheap wcam wcam).setLocalOffsetA 0).camB) =
      Camera.GetOrientationAsRotationMatrix (fun _ => 1) wheap wcam :=
  shared_rig_position_and_offset (Rig.mk wheap wcam wcam) ![5, 6, 7] 0
    (fun _ => 1) rfl

/-- C5: the default constructor allocates a fresh shared block not shared
with any previously allocated camera, and every constructor sets focal
length 1, aspect ratio 1, skew 0, principal point (0,0), radial distortion
(0,0), the identity local frame offset, and image size (0,0). -/
theorem ctor_defaults_and_fresh (H : Heap) :
    (∀ h : ℕ, (Camera.ctorBody h).FocalLength = 1 ∧
      (Camera.ctorBody h).AspectRatioOf = 1 ∧
      (Camera.ctorBody h).Skew = 0 ∧
      (Camera.ctorBody h).PrincipalPointX = 0 ∧
      (Camera.ctorBody h).PrincipalPointY = 0 ∧
      (Camera.ctorBody h).RadialDistortion1 = 0 ∧
      (Camera.ctorBody h).RadialDistortion2 = 0 ∧
      (Camera.ctorBody h).shared_to_local_rotation = 1 ∧
      (Camera.ctorBody h).image_size_ = (0, 0) ∧
      (Camera.ctorBody h).shared_extrinsics = h) ∧
    (Camera.ctorDefault H).2.shared_extrinsics = H.next ∧
    ∀ c : Camera, c.shared_extrinsics < H.next →
      c.shared_extrinsics ≠ (Camera.ctorDefault H).2.shared_extrinsics := by
  refine ⟨?_, rfl, ?_⟩
  · intro h
    refine ⟨?_, ?_, ?_, ?_, ?_, ?_, ?_, rfl, rfl, rfl⟩ <;>
      simp +decide [Camera.ctorBody, Camera.uninit, Camera.SetFocalLength,
        Camera.SetAspectRatioOf, Camera.SetSkew, Camera.SetPrincipalPoint,
        Camera.SetRadialDistortion, Camera.SetSharedToLocalTransform,
        Camera.SetSharedExtrinsics, Camera.SetImageSize, Camera.FocalLength,
        Camera.AspectRatioOf, Camera.Skew, Camera.PrincipalPointX,
        Camera.PrincipalPointY, Camera.RadialDistortion1,
        Camera.RadialDistortion2, Function.update]
  · intro c hlt
    have : (Camera.ctorDefault H).2.shared_extrinsics = H.next := rfl
    omega

/-- Witness for C5 at the concrete one-block heap (handle 5 for the bound
constructor; the pre-existing camera `wcam` holds handle 0 < 1 = next). -/
theorem ctor_defaults_and_fresh_witness :
    (Camera.ctorBody 5).FocalLength = 1 ∧
    (Camera.ctorDefault wheap).2.shared_extrinsics = wheap.next ∧
    wcam.shared_extrinsics ≠ (Camera.ctorDefault wheap).2.shared_extrinsics :=
  ⟨((ctor_defaults_and_fresh wheap).1 5).1,
   (ctor_defaults_and_fresh wheap).2.1,
   (ctor_defaults_and_fresh wheap).2.2 wcam (by norm_num [wcam, wheap])⟩

/-- C6: `SetSharedExtrinsics` changes only which shared block the camera
references: the 7 intrinsics, the local frame offset and the image size are
untouched by the re-binding. -/
theorem setSharedExtrinsics_only_rebinds (c : Camera) (h : ℕ) :
    (c.SetSharedExtrinsics h).camera_parameters_ = c.camera_parameters_ ∧
    (c.SetSharedExtrinsics h).shared_to_local_rotation =
      c.shared_to_local_rotation ∧
    (c.SetSharedExtrinsics h).image_size_ = c.image_size_ ∧
    (c.SetSharedExtrinsics h).shared_extrinsics = h :=
  ⟨rfl, rfl, rfl, rfl⟩

/-- C7 (divergence witness, evaluating the code at the failing input): the
persisted form of a default-constructed `SharedExtrinsics` is not exactly its
6-double block — `ar(parameters, sizeof(double) * kExtrinsicsSize)` also
hands the archive the byte count `48` as a second serialized item, because
the size stands as its own argument instead of inside a
`cereal::binary_data` wrapper (as `Camera::serialize` does). -/
theorem sharedExtrinsics_serialize_extra_item :
    SharedExtrinsics.init.serializeItems ≠
      SharedExtrinsics.init.sixDoubleBlock ∧
    SharedExtrinsics.init.serializeItems =
      SharedExtrinsics.init.sixDoubleBlock ++ [SerItem.int 48] := by
  refine ⟨?_, rfl⟩
  intro hcontra
  have hlen := congrArg List.length hcontra
  simp [SharedExtrinsics.serializeItems] at hlen

/-- C8: a null shared-extrinsics reference at construction
(`DCHECK_NOTNULL`) and non-positive image dimensions at
`InitializeFromProjectionMatrix` (`DCHECK_GT`) are fatal assertions: the
operation aborts (no result) rather than continuing. -/
theorem precondition_violations_abort :
    Camera.ctorChecked none = none ∧
    ∀ (matToAA : M3 → V3) (decompose : M34 → M3 × M3 × V3) (H : Heap)
      (c : Camera) (iw ih : ℤ) (P : M34), (iw ≤ 0 ∨ ih ≤ 0) →
      Camera.InitializeFromProjectionMatrix matToAA decompose H c iw ih P =
        none := by
  refine ⟨rfl, ?_⟩
  intro _ _ _ _ iw ih _ hbad
  rw [Camera.InitializeFromProjectionMatrix, if_pos hbad]

/-- Witness for C8: the null construction aborts, and a call with zero image
width aborts. -/
theorem precondition_violations_abort_witness :
    Camera.ctorChecked none = none ∧
    Camera.InitializeFromProjectionMatrix (fun _ => (fun _ => 0))
      (fun _ => (1, 1, ![0, 0, 0])) wheap wcam 0 3 0 = none :=
  ⟨precondition_violations_abort.1,
   precondition_violations_abort.2 (fun _ => (fun _ => 0))
     (fun _ => (1, 1, ![0, 0, 0])) wheap wcam 0 3 0
     (Or.inl (by norm_num))⟩

/-- C9 (counterexample): at v = (0,0,0) the divisor `v.norm()` used by the
normalization in `SetOrientationFromAngleAxis` is zero (its square, exact in
rational arithmetic, vanishes): the call divides zero by zero, so the
division is not well-defined there and the zero vector is not specially
mapped to the identity encoding. -/
theorem setOrientationFromAngleAxis_divides_by_zero_at_zero :
    setOrientationFromAngleAxisNormSq ![0, 0, 0] = 0 := by
  norm_num [setOrientationFromAngleAxisNormSq]

/-- C9 (amended): for every nonzero v the normalization divisor of
`SetOrientationFromAngleAxis` is nonzero — the division by the Euclidean
norm is well-defined exactly on nonzero vectors, and the zero vector (the
angle-axis encoding of the identity) is the one input where the code divides
by zero. -/
theorem setOrientationFromAngleAxis_divisor_nonzero (v : V3) (hv : v ≠ 0) :
    setOrientationFromAngleAxisNormSq v ≠ 0 := by
  rw [setOrientationFromAngleAxisNormSq]
  intro hsum
  apply hv
  have h0 : v 0 * v 0 = 0 := by
    nlinarith [mul_self_nonneg (v 0), mul_self_nonneg (v 1),
      mul_self_nonneg (v 2)]
  have h1 : v 1 * v 1 = 0 := by
    nlinarith [mul_self_nonneg (v 0), mul_self_nonneg (v 1),
      mul_self_nonneg (v 2)]
  have h2 : v 2 * v 2 = 0 := by
    nlinarith [mul_self_nonneg (v 0), mul_self_nonneg (v 1),
      mul_self_nonneg (v 2)]
  funext i
  fin_cases i <;>
    simp [mul_self_eq_zero.mp h0, mul_self_eq_zero.mp h1,
      mul_self_eq_zero.mp h2]

/-- Witness for C9 (amended) at v = (1,0,0). -/
theorem setOrientationFromAngleAxis_divisor_nonzero_witness :
    setOrientationFromAngleAxisNormSq ![1, 0, 0] ≠ 0 :=
  setOrientationFromAngleAxis_divisor_nonzero ![1, 0, 0] (by
    intro hcontra
    have := congrFun hcontra 0
    norm_num at this)

/-- C10 (counterexample): the setters validate nothing, so the camera state
with focal length 0 is reachable through the public constructor and
`SetFocalLength(0)`; there the x divisor `FocalLength()` of
`PixelToUnitDepthRay` is zero, refuting that the divisors are nonzero in
every reachable state. -/
theorem pixelToUnitDepthRay_divisor_zero_reachable :
    (pixelToUnitDepthRayDivisors ((Camera.ctorBody 0).SetFocalLength 0)).1 =
      0 := by
  simp [pixelToUnitDepthRayDivisors, Camera.FocalLength,
    Camera.SetFocalLength, Function.update]

/-- C10 (amended): the divisors `PixelToUnitDepthRay` uses to undo the
calibration are `FocalLength()` and `FocalLength() * AspectRatio()`; they
are both nonzero exactly when the stored focal length and aspect ratio are
both nonzero — a condition the unvalidated setters do not enforce. -/
theorem pixelToUnitDepthRay_divisors_nonzero_iff (c : Camera) :
    ((pixelToUnitDepthRayDivisors c).1 ≠ 0 ∧
      (pixelToUnitDepthRayDivisors c).2 ≠ 0) ↔
    (c.FocalLength ≠ 0 ∧ c.AspectRatioOf ≠ 0) := by
  rw [pixelToUnitDepthRayDivisors]
  simp only [ne_eq, mul_eq_zero, not_or]
  tauto

end TheiaCam
